import Mathlib

/-!
Verification of the TailoredIQ coming-soon signup form (src/src/App.tsx).

The program is a single React component with three pieces of local state
(`role`, `isSubmitted`, `error`), a declarative validation layer
(react-hook-form `register` rules), and an async submit handler `onSubmit`
that posts a payload to a fixed endpoint and, on any failure, swallows the
error and still marks the form submitted.

The embedding below translates that component directly:
* `Role`, `FormData`, `CState` mirror the TypeScript types and `useState`
  hooks (App.tsx lines 8-19).  The form never registers a `role` input, so
  the submitted form data carries only `name` and `email`; the role used by
  the handler is the component-state `role`.
* `emailMatches` embeds the register pattern `/^\S+@\S+$/i` (line 150): the
  string has no whitespace and contains an `@` at an interior position; the
  `i` flag is vacuous for this pattern.
* `validate` embeds the `register` rules together with the inline messages
  rendered at lines 144 and 155 (`required: true` on both fields and the
  email pattern; both email rules render the same message).
* `buildPayload` embeds the request body of lines 29-33; the source key
  `_subject` is the `subject` field here.
* `transmit` models the single `axios.post`: the network outcome is an
  explicit boolean, failure is an `Except.error` (the thrown exception).
* `onSubmit` embeds lines 23-41: clear the error, try to transmit, set
  `isSubmitted` on success, and on failure set the advisory notice and set
  `isSubmitted` anyway.  It is a total function into `CState`: no exception
  escapes.
* `handleSubmit` embeds react-hook-form `handleSubmit(onSubmit)`: when
  validation fails the handler is not invoked and the component state is
  untouched; otherwise `onSubmit` runs.
* `step`/`run`/`flips` give the observable operations of the rendered UI:
  the role toggle and the submit button exist only while the form is shown
  (line 89 renders the success panel instead once `isSubmitted` is true).
-/

/-- The `Role` union type of App.tsx line 8: `'company' | 'executive'`. -/
inductive Role where
  | company
  | executive
deriving DecidableEq, Repr

/-- The fields actually registered on the form (App.tsx lines 140 and 150).
The TypeScript `FormData` interface also declares `role`, but no role input
is registered, so the data delivered to the handler has only these two. -/
structure FormData where
  name : String
  email : String
deriving DecidableEq, Repr

/-- The component's local state: the three `useState` hooks of lines 17-19. -/
structure CState where
  role : Role
  isSubmitted : Bool
  error : Option String
deriving DecidableEq, Repr

/-- Initial hook values (lines 17-19): role `'executive'`, not submitted,
no error. -/
def initState : CState :=
  { role := Role.executive, isSubmitted := false, error := none }

/-- The underlying string value of a role, as in the TypeScript union. -/
def roleString : Role → String
  | Role.company => "company"
  | Role.executive => "executive"

/-- The human-readable label of line 31:
`role === 'company' ? 'Company (Find an Expert)' : 'Executive (Join as Expert)'`. -/
def roleLabel (r : Role) : String :=
  if r = Role.company then "Company (Find an Expert)" else "Executive (Join as Expert)"

/-- The request body shape posted at lines 29-33 (`_subject` is `subject`). -/
structure Payload where
  name : String
  email : String
  role : String
  subject : String
deriving DecidableEq, Repr

/-- The request body of lines 29-33: spread of the form data, role replaced
by its label, and the subject template string of line 32. -/
def buildPayload (d : FormData) (r : Role) : Payload :=
  { name := d.name
    email := d.email
    role := roleLabel r
    subject := "New TailoredIQ Signup: " ++ (roleString r).toUpper }

/-- The advisory notice set in the catch branch (line 38). -/
def simulationNotice : String :=
  "Note: Form submission simulated (Formspree ID missing). In production, this data would go to your email."

/-- The single `axios.post` of line 29, with the network outcome made an
explicit boolean: a failed call throws, modelled as `Except.error`. -/
def transmit (_p : Payload) (netOk : Bool) : Except String Unit :=
  if netOk then Except.ok () else Except.error "Network Error"

/-- The handler of lines 23-41: clear the error, post the payload, mark
submitted on success; on a thrown error, set the notice and mark submitted
anyway.  Total: no exception propagates to the caller. -/
def onSubmit (d : FormData) (s : CState) (netOk : Bool) : CState :=
  let s0 : CState := { s with error := none }
  match transmit (buildPayload d s.role) netOk with
  | Except.ok _ => { s0 with isSubmitted := true }
  | Except.error _ =>
      { s0 with error := some simulationNotice, isSubmitted := true }

/-- The per-field validation errors, carrying the inline messages rendered
at lines 144 and 155. -/
structure FieldErrors where
  nameError : Option String
  emailError : Option String
deriving DecidableEq, Repr

/-- Embeds the pattern `/^\S+@\S+$/i` of line 150: every character is
non-whitespace and some interior character is `@`. -/
def emailMatches (s : String) : Bool :=
  s.data.all (fun c => !c.isWhitespace) && ((s.data.drop 1).dropLast.contains '@')

/-- The `register` rules: `name` has `required: true` (line 140), `email`
has `required: true` and the pattern (line 150); a failing email rule of
either kind renders the one message of line 155, and `emailMatches` is
already false on the empty string. -/
def validate (d : FormData) : FieldErrors :=
  { nameError := if d.name = "" then some "Name is required" else none
    emailError := if emailMatches d.email then none else some "Valid email is required" }

/-- True when some field failed validation. -/
def hasErrors (e : FieldErrors) : Bool :=
  e.nameError.isSome || e.emailError.isSome

/-- Outcome of pressing submit: the resulting component state, the inline
field errors, and whether the handler `onSubmit` was invoked. -/
structure SubmitResult where
  state : CState
  errors : FieldErrors
  handlerInvoked : Bool
deriving DecidableEq, Repr

/-- react-hook-form `handleSubmit(onSubmit)` (line 136): validation runs
first; if it fails, the errors are surfaced and the handler is never
invoked; otherwise `onSubmit` runs with the registered data. -/
def handleSubmit (d : FormData) (s : CState) (netOk : Bool) : SubmitResult :=
  let errs := validate d
  if hasErrors errs then
    { state := s, errors := errs, handlerInvoked := false }
  else
    { state := onSubmit d s netOk, errors := errs, handlerInvoked := true }

/-- The user-visible operations of the component: toggling the role
(lines 111 and 123) and submitting the form with a given network outcome. -/
inductive Op where
  | selectRole (r : Role)
  | submit (d : FormData) (netOk : Bool)

/-- One UI step.  Once `isSubmitted` is true the success panel replaces the
form (line 89), so neither the toggle nor the submit button exists and the
state is unchanged; otherwise the operation acts as in the source. -/
def step (s : CState) (op : Op) : CState :=
  if s.isSubmitted then s
  else
    match op with
    | Op.selectRole r => { s with role := r }
    | Op.submit d netOk => (handleSubmit d s netOk).state

/-- Runs a sequence of UI operations from a state. -/
def run (s : CState) : List Op → CState
  | [] => s
  | op :: ops => run (step s op) ops

/-- Counts, along a run, the steps at which `isSubmitted` flips from false
to true, i.e. how many times the `Form → Submitted` transition fires. -/
def flips (s : CState) : List Op → Nat
  | [] => 0
  | op :: ops =>
      (if !s.isSubmitted && (step s op).isSubmitted then 1 else 0) + flips (step s op) ops

/-- The request body as section 4.2 of the specification words it, with
subject `"New signup: " ++` the upper-cased role.  Kept to compare against
the body the source builds. -/
def specRequestBody (d : FormData) (r : Role) : Payload :=
  { name := d.name
    email := d.email
    role := roleLabel r
    subject := "New signup: " ++ (roleString r).toUpper }

/-- The request body as amended: the subject literal the source actually
uses is `"New TailoredIQ Signup: "`. -/
def specRequestBodyAmended (d : FormData) (r : Role) : Payload :=
  { name := d.name
    email := d.email
    role := roleLabel r
    subject := "New TailoredIQ Signup: " ++ (roleString r).toUpper }

lemma onSubmit_isSubmitted (d : FormData) (s : CState) (netOk : Bool) :
    (onSubmit d s netOk).isSubmitted = true := by
  cases netOk <;> rfl

lemma validate_valid {d : FormData} (hn : d.name ≠ "") (he : emailMatches d.email = true) :
    validate d = { nameError := none, emailError := none } := by
  simp [validate, hn, he]

lemma handleSubmit_valid {d : FormData} (s : CState) (netOk : Bool)
    (hn : d.name ≠ "") (he : emailMatches d.email = true) :
    handleSubmit d s netOk =
      { state := onSubmit d s netOk
        errors := { nameError := none, emailError := none }
        handlerInvoked := true } := by
  simp [handleSubmit, validate_valid hn he, hasErrors]

lemma step_submitted {s : CState} (h : s.isSubmitted = true) (op : Op) :
    step s op = s := by
  simp [step, h]

lemma step_mono {s : CState} (op : Op) (h : s.isSubmitted = true) :
    (step s op).isSubmitted = true := by
  rw [step_submitted h]; exact h

lemma run_mono {s : CState} (ops : List Op) (h : s.isSubmitted = true) :
    (run s ops).isSubmitted = true := by
  induction ops generalizing s with
  | nil => exact h
  | cons op ops ih => exact ih (step_mono op h)

lemma run_append (s : CState) (a b : List Op) :
    run s (a ++ b) = run (run s a) b := by
  induction a generalizing s with
  | nil => rfl
  | cons op a ih => simp [run, ih]

lemma flips_submitted {s : CState} (ops : List Op) (h : s.isSubmitted = true) :
    flips s ops = 0 := by
  induction ops generalizing s with
  | nil => rfl
  | cons op ops ih => simp [flips, h, step_submitted h, ih h]

lemma flips_eq (s : CState) (ops : List Op) :
    flips s ops =
      if (run s ops).isSubmitted && !s.isSubmitted then 1 else 0 := by
  induction ops generalizing s with
  | nil => simp [flips, run]
  | cons op ops ih =>
    cases hs : s.isSubmitted with
    | true =>
      simp [flips_submitted _ hs, run_mono _ hs, hs]
    | false =>
      cases hs2 : (step s op).isSubmitted with
      | true =>
        simp [flips, run, hs, hs2, flips_submitted ops hs2, run_mono ops hs2]
      | false =>
        simp [flips, run, hs, hs2, ih]

lemma step_submit_valid {d : FormData} (s : CState) (netOk : Bool)
    (hn : d.name ≠ "") (he : emailMatches d.email = true) :
    (step s (Op.submit d netOk)).isSubmitted = true := by
  cases hs : s.isSubmitted with
  | true => exact step_mono _ hs
  | false =>
    simp [step, hs, handleSubmit_valid s netOk hn he, onSubmit_isSubmitted]

/-- Claim C1: for every input with non-empty name and email matching the
pattern, and any role selections before or after, submitting makes the
component reach `Submitted` exactly once — the `Form → Submitted` flip
fires exactly one time along the whole run — regardless of whether the
network call succeeds or fails. -/
theorem submit_reaches_submitted_exactly_once
    (d : FormData) (netOk : Bool) (pre post : List Op)
    (hn : d.name ≠ "") (he : emailMatches d.email = true) :
    flips initState (pre ++ Op.submit d netOk :: post) = 1 := by
  have h0 : initState.isSubmitted = false := rfl
  have hfinal : (run initState (pre ++ Op.submit d netOk :: post)).isSubmitted = true := by
    rw [run_append]
    show (run (step (run initState pre) (Op.submit d netOk)) post).isSubmitted = true
    exact run_mono post (step_submit_valid _ netOk hn he)
  rw [flips_eq, hfinal, h0]
  rfl

/-- Witness for C1 at the spec's example input, with a role toggle before
the submit and a failing network call. -/
theorem submit_reaches_submitted_exactly_once_witness :
    ("Sarah Connor" ≠ "" ∧ emailMatches "sarah@techcorp.com" = true) ∧
      flips initState
        (Op.selectRole Role.company ::
          Op.submit { name := "Sarah Connor", email := "sarah@techcorp.com" } false :: []) = 1 :=
  ⟨⟨by decide, by decide⟩,
    submit_reaches_submitted_exactly_once
      { name := "Sarah Connor", email := "sarah@techcorp.com" } false
      [Op.selectRole Role.company] [] (by decide) (by decide)⟩

/-- Claim C2: on a valid submission whose outbound call fails, the handler
is invoked and swallows the error (it is a total function into `CState`):
the end state is `Submitted`, and the notice set is a non-empty string
mentioning that submission was simulated. -/
theorem failed_submit_swallowed (d : FormData) (s : CState)
    (hn : d.name ≠ "") (he : emailMatches d.email = true) :
    (handleSubmit d s false).handlerInvoked = true ∧
      (handleSubmit d s false).state.isSubmitted = true ∧
      (handleSubmit d s false).state.error = some simulationNotice ∧
      simulationNotice ≠ "" ∧
      (∃ a b, simulationNotice = a ++ "simulated" ++ b) := by
  rw [handleSubmit_valid s false hn he]
  exact ⟨rfl, rfl, rfl, by decide,
    "Note: Form submission ",
    " (Formspree ID missing). In production, this data would go to your email.", rfl⟩

/-- Witness for C2 at a concrete valid input. -/
theorem failed_submit_swallowed_witness :
    ("Sarah Connor" ≠ "" ∧ emailMatches "sarah@techcorp.com" = true) ∧
      ((handleSubmit { name := "Sarah Connor", email := "sarah@techcorp.com" } initState false).handlerInvoked = true ∧
        (handleSubmit { name := "Sarah Connor", email := "sarah@techcorp.com" } initState false).state.isSubmitted = true ∧
        (handleSubmit { name := "Sarah Connor", email := "sarah@techcorp.com" } initState false).state.error = some simulationNotice ∧
        simulationNotice ≠ "" ∧
        (∃ a b, simulationNotice = a ++ "simulated" ++ b)) :=
  ⟨⟨by decide, by decide⟩,
    failed_submit_swallowed { name := "Sarah Connor", email := "sarah@techcorp.com" }
      initState (by decide) (by decide)⟩

/-- Claim C3: the payload's role field is the human-readable label of the
selected role: `company` (prospective client) yields a label containing
"Find an Expert", `executive` (prospective expert) one containing
"Join as Expert". -/
theorem payload_role_label (d : FormData) :
    (buildPayload d Role.company).role = "Company (Find an Expert)" ∧
      (∃ a b, (buildPayload d Role.company).role = a ++ "Find an Expert" ++ b) ∧
      (buildPayload d Role.executive).role = "Executive (Join as Expert)" ∧
      (∃ a b, (buildPayload d Role.executive).role = a ++ "Join as Expert" ++ b) :=
  ⟨rfl, ⟨"Company (", ")", rfl⟩, rfl, ⟨"Executive (", ")", rfl⟩⟩

/-- Claim C4, counterexample: at the spec's example input with role
`executive`, the body the source builds is not the spec's body — the
subject is "New TailoredIQ Signup: EXECUTIVE", not "New signup: EXECUTIVE". -/
theorem subject_literal_counterexample :
    buildPayload { name := "Sarah Connor", email := "sarah@techcorp.com" } Role.executive ≠
      specRequestBody { name := "Sarah Connor", email := "sarah@techcorp.com" } Role.executive := by
  decide

/-- Claim C4 as amended: for every submission, the request body equals
`{name, email, role: label, subject: "New TailoredIQ Signup: " + role
upper-cased}` — the subject's literal prefix is "New TailoredIQ Signup: ". -/
theorem request_body_shape (d : FormData) (r : Role) :
    buildPayload d r = specRequestBodyAmended d r := by
  cases r <;> rfl

/-- Claim C5: with an empty name the component state is unchanged (no
transition out of `Form`), the handler is never invoked, and the inline
"Name is required" message is surfaced. -/
theorem empty_name_blocks_submit (d : FormData) (s : CState) (netOk : Bool)
    (h : d.name = "") :
    (handleSubmit d s netOk).state = s ∧
      (handleSubmit d s netOk).handlerInvoked = false ∧
      (handleSubmit d s netOk).errors.nameError = some "Name is required" := by
  simp [handleSubmit, validate, hasErrors, h]

/-- Witness for C5 at a concrete empty-name input. -/
theorem empty_name_blocks_submit_witness :
    ((({ name := "", email := "sarah@techcorp.com" } : FormData).name = "") ∧
      (handleSubmit { name := "", email := "sarah@techcorp.com" } initState true).state = initState ∧
      (handleSubmit { name := "", email := "sarah@techcorp.com" } initState true).handlerInvoked = false ∧
      (handleSubmit { name := "", email := "sarah@techcorp.com" } initState true).errors.nameError = some "Name is required") :=
  ⟨by decide,
    empty_name_blocks_submit { name := "", email := "sarah@techcorp.com" } initState true rfl⟩

/-- Claim C6: with an email not matching the pattern, the component state
is unchanged (no transition out of `Form`), the handler is never invoked,
and the inline "Valid email is required" message is surfaced. -/
theorem bad_email_blocks_submit (d : FormData) (s : CState) (netOk : Bool)
    (h : emailMatches d.email = false) :
    (handleSubmit d s netOk).state = s ∧
      (handleSubmit d s netOk).handlerInvoked = false ∧
      (handleSubmit d s netOk).errors.emailError = some "Valid email is required" := by
  simp [handleSubmit, validate, hasErrors, h]

/-- Witness for C6 at the spec's example input "not-an-email". -/
theorem bad_email_blocks_submit_witness :
    (emailMatches "not-an-email" = false ∧
      (handleSubmit { name := "Sarah Connor", email := "not-an-email" } initState true).state = initState ∧
      (handleSubmit { name := "Sarah Connor", email := "not-an-email" } initState true).handlerInvoked = false ∧
      (handleSubmit { name := "Sarah Connor", email := "not-an-email" } initState true).errors.emailError = some "Valid email is required") :=
  ⟨by decide,
    bad_email_blocks_submit { name := "Sarah Connor", email := "not-an-email" } initState true (by decide)⟩

/-- Claim C7: every run of the handler ends in `Submitted`, the notice is
cleared at the start, and a notice is present in the end state if and only
if the transmission failed — a successful call leaves no notice even when
one was previously set. -/
theorem notice_iff_transmission_failed (d : FormData) (s : CState) (netOk : Bool) :
    (onSubmit d s netOk).isSubmitted = true ∧
      ((onSubmit d s netOk).error ≠ none ↔ netOk = false) := by
  cases netOk <;> simp [onSubmit, transmit]

/-- Claim C8: a fresh component instance starts in the `Form` state
(`submitted = false`) with role defaulted to `executive` (the prospective
expert) and no notice set. -/
theorem initial_state_form_executive :
    initState.isSubmitted = false ∧ initState.role = Role.executive ∧
      initState.error = none :=
  ⟨rfl, rfl, rfl⟩

/-- Claim C9: the component state machine has exactly the two UI states
`Form` and `Submitted` (the boolean `isSubmitted`), starts in `Form`, and
`Submitted` is terminal: no single operation nor any sequence of
operations (role selection, submit with success or failure) ever sets
`isSubmitted` back to false. -/
theorem submitted_is_terminal (s : CState) (op : Op) (ops : List Op)
    (h : s.isSubmitted = true) :
    (s.isSubmitted = false ∨ s.isSubmitted = true) ∧
      initState.isSubmitted = false ∧
      (step s op).isSubmitted = true ∧
      (run s ops).isSubmitted = true :=
  ⟨Bool.dichotomy s.isSubmitted, rfl, step_mono op h, run_mono ops h⟩

/-- Witness for C9 from a concrete submitted state under a toggle and a
resubmission attempt. -/
theorem submitted_is_terminal_witness :
    (({ role := Role.executive, isSubmitted := true, error := none } : CState).isSubmitted = true) ∧
      ((({ role := Role.executive, isSubmitted := true, error := none } : CState).isSubmitted = false ∨
          ({ role := Role.executive, isSubmitted := true, error := none } : CState).isSubmitted = true) ∧
        initState.isSubmitted = false ∧
        (step { role := Role.executive, isSubmitted := true, error := none }
            (Op.selectRole Role.company)).isSubmitted = true ∧
        (run { role := Role.executive, isSubmitted := true, error := none }
            [Op.submit { name := "a", email := "a@b" } true]).isSubmitted = true) :=
  ⟨rfl,
    submitted_is_terminal { role := Role.executive, isSubmitted := true, error := none }
      (Op.selectRole Role.company)
      [Op.submit { name := "a", email := "a@b" } true] rfl⟩

/-- Claim C10: the name and email fields pass through to the outbound
payload exactly as entered — byte for byte, no trimming or normalization;
only the role is replaced by its label and a subject is added. -/
theorem payload_preserves_name_email (d : FormData) (r : Role) :
    (buildPayload d r).name = d.name ∧ (buildPayload d r).email = d.email ∧
      (buildPayload d r).role = roleLabel r ∧
      (buildPayload d r).subject = "New TailoredIQ Signup: " ++ (roleString r).toUpper :=
  ⟨rfl, rfl, rfl, rfl⟩
